import Mathlib

/-!
Verification development for the sichter repository: a shallow embedding of
the API gate, queue enqueue, event-log tail, policy coercion, worker PID
lock, changed-file selection and severity normalization, with theorems
settling the specification claims against it.
-/

namespace Sichter

/-- ASCII lower-casing of a string, modelling Python `str.lower()` on the
ASCII range (the only range the policy/severity tables contain). -/
def asciiLower (s : String) : String :=
  ⟨s.toList.map fun c =>
    if 'A' ≤ c ∧ c ≤ 'Z' then Char.ofNat (c.toNat + 32) else c⟩

/-- The ASCII whitespace characters Python `str.strip()` removes. -/
def isPyWhitespace (c : Char) : Bool :=
  c = ' ' ∨ c = '\t' ∨ c = '\n' ∨ c = '\r' ∨ c = '\x0b' ∨ c = '\x0c'

/-- Python `str.strip()` restricted to ASCII whitespace: drop whitespace
from both ends. -/
def pyStrip (s : String) : String :=
  ⟨((s.toList.dropWhile isPyWhitespace).reverse.dropWhile isPyWhitespace).reverse⟩

/-- Digit-sequence parse used by `pyInt`. -/
def digitsToNat (cs : List Char) : Option Nat :=
  if cs ≠ [] ∧ cs.all Char.isDigit then
    some (cs.foldl (fun a c => 10 * a + (c.toNat - 48)) 0)
  else none

/-- Python `int(str)` on the inputs the worker meets: surrounding whitespace
is ignored, an optional sign precedes decimal digits; anything else raises
`ValueError`, modelled as `none`. (Pythons digit-group underscores are not
modelled; a pid file never contains them.) -/
def pyInt (s : String) : Option Int :=
  match (pyStrip s).toList with
  | '-' :: rest => (digitsToNat rest).map fun n => -(n : Int)
  | '+' :: rest => (digitsToNat rest).map fun n => (n : Int)
  | cs => (digitsToNat cs).map fun n => (n : Int)

/-! ## API gate (`src/apps/api/auth.py`, `src/apps/api/main.py`) -/

/-- Python exceptions relevant to the gate. `ApiKeyError` derives from
`Exception` directly (`class ApiKeyError(Exception)` in `auth.py`); it is
*not* a `ValueError`. -/
inductive PyExc where
  | apiKeyError (kind : String) (message : String)
  | valueError (message : String)
deriving DecidableEq, Repr

/-- Which exceptions an `except ValueError` clause catches. -/
def PyExc.isValueError : PyExc → Bool
  | .valueError _ => true
  | .apiKeyError _ _ => false

/-- `str(e)`: for `ApiKeyError` the constructor passes `message` to
`super().__init__`, so `str` returns the message. -/
def PyExc.msg : PyExc → String
  | .apiKeyError _ m => m
  | .valueError m => m

/-- Python truthiness of an optional string (`if not x`): `None` and the
empty string are falsy. -/
def pyTruthyStr : Option String → Bool
  | none => false
  | some s => s ≠ ""

/-- `check_api_key` from `src/apps/api/auth.py`: fail-closed validation.
`hmac.compare_digest` returns `True` exactly on byte equality. -/
def check_api_key (provided expected : Option String) : Except PyExc Unit :=
  if !pyTruthyStr expected then
    .error (.apiKeyError "not_configured" "API Key is not configured on server")
  else if !pyTruthyStr provided then
    .error (.apiKeyError "missing" "API Key is missing")
  else if provided ≠ expected then
    .error (.apiKeyError "invalid" "Invalid API Key")
  else .ok ()

/-- Outcome of a FastAPI dependency: either the request proceeds, or the
handler raised `HTTPException(403, detail)`, or an exception escaped the
handler (which the framework maps to HTTP 500). -/
inductive HttpResult where
  | ok (apiKey : Option String)
  | forbidden (detail : String)
  | unhandledException (exc : PyExc)
deriving DecidableEq, Repr

/-- `verify_api_key` from `src/apps/api/main.py` (lines 72-81): it calls
`check_api_key` and converts **only `ValueError`** to a 403
`HTTPException`; any other exception propagates. -/
def verify_api_key (apiKey envKey : Option String) : HttpResult :=
  match check_api_key apiKey envKey with
  | .ok _ => .ok apiKey
  | .error e =>
      if e.isValueError then .forbidden e.msg
      else .unhandledException e

/-- The HTTP status the client observes for each gate outcome (FastAPI
returns 500 for an unhandled exception). -/
def statusCode : HttpResult → Nat
  | .ok _ => 200
  | .forbidden _ => 403
  | .unhandledException _ => 500

/-! ## Severity normalization (`src/apps/worker/run.py`, `src/lib/findings.py`) -/

/-- The `Severity` literal values of `src/lib/findings.py`. -/
def VALID_SEVERITIES : List String :=
  ["info", "warning", "error", "critical", "question"]

/-- `normalize_severity` from `src/apps/worker/run.py` (lines 264-269). -/
def normalize_severity (severity : String) : String :=
  let severity_lower := asciiLower severity
  if severity_lower ∈ VALID_SEVERITIES then severity_lower else "warning"

/-! ## Queue enqueue and crash-safety traces
(`src/apps/api/main.py` `_enqueue`, `src/chronik/app/main.py` `job_submit`) -/

/-- State of one path in the queue directory: absent, torn (a write has
started but not finished: a reader sees a truncated document), or
complete. -/
inductive FileState where
  | absent
  | torn
  | complete
deriving DecidableEq, Repr

/-- Primitive filesystem steps that an enqueue performs.  A plain
`write_text` is `beginWrite` followed by `finishWrite` on the same path;
`rename` is POSIX-atomic. -/
inductive FsOp where
  | beginWrite (p : String)
  | finishWrite (p : String)
  | rename (src dst : String)
deriving DecidableEq, Repr

/-- Effect of one primitive step on the directory contents. -/
def applyOp (fs : String → FileState) : FsOp → (String → FileState)
  | .beginWrite p => fun q => if q = p then .torn else fs q
  | .finishWrite p => fun q => if q = p then .complete else fs q
  | .rename src dst => fun q =>
      if q = dst then fs src else if q = src then .absent else fs q

/-- All observation points along a trace: the initial state and the state
after each primitive step. -/
def statesAlong (fs : String → FileState) : List FsOp → List (String → FileState)
  | [] => [fs]
  | op :: ops => fs :: statesAlong (applyOp fs op) ops

/-- The states of one file name at every observation point of a trace. -/
def observedStates (fs : String → FileState) (ops : List FsOp) (name : String) :
    List FileState :=
  (statesAlong fs ops).map fun s => s name

/-- An empty queue directory. -/
def emptyDir : String → FileState := fun _ => .absent

/-- The trace of `_enqueue` in `src/apps/api/main.py` (lines 84-92): it
calls `f.write_text(...)` directly on `QUEUE/<jid>.json` — no temporary
sibling, no rename. -/
def enqueue_api_ops (jid : String) : List FsOp :=
  [.beginWrite (jid ++ ".json"), .finishWrite (jid ++ ".json")]

/-- The trace of `job_submit` in `src/chronik/app/main.py` (lines 195-197):
write `<jid>.json.new`, then rename it over `<jid>.json`. -/
def job_submit_ops (jid : String) : List FsOp :=
  [.beginWrite (jid ++ ".json.new"), .finishWrite (jid ++ ".json.new"),
   .rename (jid ++ ".json.new") (jid ++ ".json")]

/-! ## Policy boolean coercion (`src/apps/worker/run.py`, `Policy._bool_with_default`) -/

/-- The Python values a YAML policy field can hold. -/
inductive PyVal where
  | pyNone
  | pyBool (b : Bool)
  | pyStr (s : String)
  | pyInt (n : Int)
  | pyList (xs : List PyVal)
deriving Repr

/-- Python `bool(value)` truthiness on those values. -/
def pyTruthy : PyVal → Bool
  | .pyNone => false
  | .pyBool b => b
  | .pyStr s => s ≠ ""
  | .pyInt n => n ≠ 0
  | .pyList xs => !xs.isEmpty

/-- The true-words table of `_bool_with_default`. -/
def TRUE_WORDS : List String := ["true", "1", "yes", "y", "on"]

/-- The false-words table of `_bool_with_default`. -/
def FALSE_WORDS : List String := ["false", "0", "no", "n", "off"]

/-- `Policy._bool_with_default` from `src/apps/worker/run.py` (lines
116-134): `None` yields the default, native booleans pass through, strings
go through the trimmed lower-cased word tables (unknown strings are logged
and yield the default), and **every remaining value falls through to
`return bool(value)`** — Python truthiness, not the default. -/
def bool_with_default (value : PyVal) (dflt : Bool) : Bool :=
  match value with
  | .pyNone => dflt
  | .pyBool b => b
  | .pyStr s =>
      let normalized := asciiLower (pyStrip s)
      if normalized ∈ TRUE_WORDS then true
      else if normalized ∈ FALSE_WORDS then false
      else dflt
  | v => pyTruthy v

/-! ## Worker PID lock (`src/apps/worker/run.py`, `acquire_pid_lock`) -/

/-- The filesystem state `acquire_pid_lock` can touch: the contents of
`STATE/worker.pid` (`none` = file absent) and the queue directory
listing (which the function must leave alone). -/
structure WorkerFs where
  pidFile : Option String
  queue : List String
deriving DecidableEq, Repr

/-- How the worker start ends: `SystemExit(0)` or lock acquired. -/
inductive LockResult where
  | exitZero
  | locked
deriving DecidableEq, Repr

/-- Result of `acquire_pid_lock`: the outcome, the filesystem afterwards,
and whether `atexit` unlink-on-exit was registered. -/
structure LockStep where
  result : LockResult
  fs : WorkerFs
  unlinkRegistered : Bool
deriving DecidableEq, Repr

/-- `acquire_pid_lock` from `src/apps/worker/run.py` (lines 87-103).
`int(PID_FILE.read_text().strip())` is `pyInt` (which strips); a parse
failure leaves `existing_pid = None`; `if existing_pid and
is_process_alive(existing_pid)` tests truthiness (nonzero) and liveness
against the process table `alive`; on the live branch the worker raises
`SystemExit(0)` touching nothing, otherwise it unlinks, writes its own
pid and registers unlink-on-exit. -/
def acquire_pid_lock (alive : Int → Bool) (selfPid : Nat) (fs : WorkerFs) :
    LockStep :=
  let proceed : LockStep :=
    ⟨.locked, ⟨some (toString selfPid), fs.queue⟩, true⟩
  match fs.pidFile with
  | some content =>
      match pyInt content with
      | some p => if p ≠ 0 ∧ alive p = true then ⟨.exitZero, fs, false⟩ else proceed
      | none => proceed
  | none => proceed

/-- Spec-side reading of "the PID file exists and names a live process":
the file is present, parses as an integer, is truthy (nonzero — pid 0
never names a process) and the process table reports it alive. -/
def livePidRecorded (alive : Int → Bool) (fs : WorkerFs) : Bool :=
  match fs.pidFile with
  | some content =>
      match pyInt content with
      | some p => decide (p ≠ 0) && alive p
      | none => false
  | none => false

/-! ## Event tail (`src/apps/api/main.py`: `_tail_file`, `_collect_events`,
`tail_events`, and the `/events/stream` replay) -/

/-- `_tail_file` from `src/apps/api/main.py` (lines 299-334) at line
granularity, for a file whose bytes fit in the read window (the block loop
has then read the whole file): the function returns Python `lines[-n:]` —
the last `n` lines for `n > 0`, **all** lines for `n = 0` (`lines[-0:]`
is `lines[0:]`), and the lines from index `-n` on for `n < 0`. -/
def tailFile (lines : List String) (n : Int) : List String :=
  if 0 < n then lines.drop (lines.length - n.toNat)
  else lines.drop (-n).toNat

/-- The accumulation loop of `_collect_events`: walk the daily files
newest-first; stop as soon as `needed = limit - len(lines)` is ≤ 0;
otherwise extend the accumulator (newest line first) with the reversed
tail of the next file. -/
def collectLinesRev (limit : Nat) : List (List String) → List String → List String
  | [], acc => acc
  | f :: rest, acc =>
      if limit ≤ acc.length then acc
      else
        collectLinesRev limit rest
          (acc ++ (tailFile f ((limit : Int) - (acc.length : Int))).reverse)

/-- `_collect_events` from `src/apps/api/main.py` (lines 337-382) at line
granularity.  `files` are the daily event files newest-first (the order
`_get_sorted_files` returns), each as its list of lines in file
(chronological) order.  The newest `limit` lines are gathered newest
first, then `reversed` **back to chronological order** for display, and
blank lines are dropped when the event entries are built. -/
def collect_events (files : List (List String)) (limit : Nat) : List String :=
  let lines := collectLinesRev limit files []
  let recent := (lines.take limit).reverse
  recent.filter fun raw => pyStrip raw ≠ ""

/-- `tail_events` (GET `/events/tail`, lines 436-439): the collected event
lines joined with newlines. -/
def tail_events (files : List (List String)) (n : Nat) : String :=
  String.intercalate "\n" (collect_events files n)

/-- The `replay` query-parameter handling of `events_stream`
(`src/apps/api/main.py` lines 577-580): absent parameter → 50; present →
`int(value)`, with `ValueError` falling back to 50.  **No clamping** is
applied (the adjacent `heartbeat` parameter does get `max(3, …)`). -/
def parseReplayParam (q : Option String) : Int :=
  match q with
  | none => 50
  | some s => (pyInt s).getD 50

/-- The initial replay `events_stream` performs on accept (lines 586-593):
send `_read_last_lines(newest, replay)`, i.e. `_tail_file` of the newest
daily file. -/
def initialReplay (newestFileLines : List String) (q : Option String) :
    List String :=
  tailFile newestFileLines (parseReplayParam q)

/-! ## Rate limiter -/

/-- Modelled from the spec: `WINDOW_SECONDS` (spec §4.4, default 60); no
rate-limiter code exists under `src/`. -/
def WINDOW_SECONDS : Nat := 60

/-- Modelled from the spec: `MAX_REQUESTS` (spec §4.4, default 120). -/
def MAX_REQUESTS : Nat := 120

/-- Outcome of the gate on one request. -/
inductive GateResult where
  | accepted
  | rejected (status : Nat) (detail : String)
deriving DecidableEq, Repr

/-- Modelled from the spec: the per-client fixed-window rate limiter of
spec §4.4 and property 3, absent from `src/`.  On each gated request:
trim the client's bucket to the window ("discard entries older than
WINDOW_SECONDS"), reject with `429 "rate limit exceeded"` iff the
remaining count of prior requests is ≥ `maxRequests` (property 3: the
(k+1)-th request yields 429 iff k ≥ MAX_REQUESTS), and append `now`.
Other clients' buckets are untouched. -/
def rate_limit_gate (maxRequests window now : Nat)
    (buckets : String → List Nat) (client : String) :
    (String → List Nat) × GateResult :=
  let kept := (buckets client).filter fun t => now - t < window
  (fun c => if c = client then kept ++ [now] else buckets c,
   if maxRequests ≤ kept.length then .rejected 429 "rate limit exceeded"
   else .accepted)

/-! ## Changed-file selection (`src/apps/worker/run.py`, `get_changed_files`) -/

/-- Paths as component lists (relative to an abstract filesystem root). -/
abbrev PathParts := List String

/-- Split a raw git-diff line on `/` and drop empty and `.` components —
the normalization `pathlib` applies when the string is joined onto
`repo_dir`. -/
def splitChars : List Char → List Char → List String
  | [], cur => [⟨cur.reverse⟩]
  | '/' :: rest, cur => ⟨cur.reverse⟩ :: splitChars rest []
  | c :: rest, cur => splitChars rest (c :: cur)

/-- Components of a relative path string. -/
def splitPath (s : String) : List String :=
  (splitChars s.toList []).filter fun c => c ≠ "" ∧ c ≠ "."

/-- `resolved.relative_to(repo_root)` succeeds exactly when `repo_root` is
a component prefix of `resolved`. -/
def isWithin (root p : PathParts) : Bool := root.isPrefixOf p

/-- `get_changed_files` from `src/apps/worker/run.py` (lines 178-247).
The filesystem is abstract: `resolve` is `Path.resolve` (symlink
resolution; also applied to `repo_dir` to obtain `repo_root`),
`fileExists` is `Path.exists`, `excludeMatch` is `any(fnmatch(rel, ex))`
over the policy excludes.  `diffExit`/`diffStdout` are the result of
`git diff --name-only`.  Per line: strip; skip blanks; skip paths that do
not exist; skip paths whose resolved location is not inside `repo_root`
(logged, never raised); skip excluded relative paths; keep the rest.
This is one iteration of the `for raw in result.stdout.splitlines()` loop
(`rel_path_str = raw.strip()`, `path = repo_dir / rel_path_str`, with the
locals written out): -/
def keepChanged (repoDir repoRoot : PathParts) (resolve : PathParts → PathParts)
    (fileExists : PathParts → Bool) (excludeMatch : String → Bool)
    (raw : String) : Option PathParts :=
  if pyStrip raw = "" then none
  else if !fileExists (repoDir ++ splitPath (pyStrip raw)) then none
  else if !isWithin repoRoot (resolve (repoDir ++ splitPath (pyStrip raw))) then none
  else if excludeMatch (String.intercalate "/" (splitPath (pyStrip raw))) then none
  else some (repoDir ++ splitPath (pyStrip raw))

/-- The whole of `get_changed_files`: `[]` when `git diff` fails, else the
kept paths with `repo_root = repo_dir.resolve()`. -/
def get_changed_files (repoDir : PathParts) (resolve : PathParts → PathParts)
    (fileExists : PathParts → Bool) (excludeMatch : String → Bool)
    (diffExit : Int) (diffStdout : List String) : List PathParts :=
  if diffExit ≠ 0 then []
  else
    diffStdout.filterMap
      (keepChanged repoDir (resolve repoDir) resolve fileExists excludeMatch)

/-- The filesystem of the symlink-escape scenario (the repository's own
test `test_get_changed_files.py`): inside the repo root `repo` live
`inside.py` and a symlink `link.py` whose target is outside. -/
def demoResolve : PathParts → PathParts := fun p =>
  if p = ["repo", "link.py"] then ["outside", "target.py"] else p

end Sichter

namespace Sichter

/-- C1: for a gated request whose API-key check fails, the code does NOT
answer 403: `verify_api_key` catches only `ValueError`, while
`check_api_key` raises `ApiKeyError` (a direct `Exception` subclass), so
the exception escapes and the framework answers 500.  Evaluated at the
spec's own scenario S3: secret configured, `X-API-Key` header absent. -/
theorem c1_missing_header_yields_500_not_403 :
    verify_api_key none (some "secret")
      = .unhandledException (.apiKeyError "missing" "API Key is missing")
    ∧ statusCode (verify_api_key none (some "secret")) = 500
    ∧ statusCode (verify_api_key none (some "secret")) ≠ 403 := by
  refine ⟨rfl, rfl, ?_⟩
  decide

/-- C10: `normalize_severity` always lands in the valid severity set; a
lowercased input already in the set is returned as-is, anything else maps
to `"warning"`. -/
theorem c10_normalize_severity_total (s : String) :
    normalize_severity s ∈ VALID_SEVERITIES
    ∧ (asciiLower s ∈ VALID_SEVERITIES → normalize_severity s = asciiLower s)
    ∧ (asciiLower s ∉ VALID_SEVERITIES → normalize_severity s = "warning") := by
  have hval : normalize_severity s
      = if asciiLower s ∈ VALID_SEVERITIES then asciiLower s else "warning" := rfl
  by_cases h : asciiLower s ∈ VALID_SEVERITIES
  · rw [hval, if_pos h]
    exact ⟨h, fun _ => rfl, fun hc => absurd h hc⟩
  · rw [hval, if_neg h]
    exact ⟨by decide, fun hc => absurd hc h, fun _ => rfl⟩

/-- C10 witness: the theorem applied to the concrete analyzer output
`"ERROR"` and to the unknown severity `"High"`. -/
theorem c10_normalize_severity_total_witness :
    normalize_severity "ERROR" = "error" ∧ normalize_severity "High" = "warning" := by
  constructor
  · exact (c10_normalize_severity_total "ERROR").2.1 (by decide)
  · exact (c10_normalize_severity_total "High").2.2 (by decide)

/-- C2: `_enqueue` in `src/apps/api/main.py` writes `queue/<jid>.json`
directly, so starting from an empty directory the queue file passes
through a torn (partially written) state visible to a dequeuer — the
claimed write-to-sibling + rename discipline does not hold there.  The
chronik `job_submit` trace, by contrast, never exposes a torn
`<jid>.json` at any observation point. -/
theorem c2_api_enqueue_exposes_torn_job :
    observedStates emptyDir (enqueue_api_ops "1700000000-abcd1234")
        "1700000000-abcd1234.json"
      = [.absent, .torn, .complete]
    ∧ FileState.torn ∈
        observedStates emptyDir (enqueue_api_ops "1700000000-abcd1234")
          "1700000000-abcd1234.json"
    ∧ FileState.torn ∉
        observedStates emptyDir (job_submit_ops "1700000000-abcd1234")
          "1700000000-abcd1234.json" := by
  refine ⟨?_, ?_, ?_⟩ <;> decide

/-- C5 counterexample: the policy value `0` (a YAML integer) with caller
default `True` is neither `None`, a boolean, nor a string; the claim says
the default (`True`) applies, but `_bool_with_default` falls through to
`return bool(value)` and yields `False`. -/
theorem c5_int_zero_ignores_default :
    bool_with_default (.pyInt 0) true = false
    ∧ bool_with_default (.pyInt 0) true ≠ true := by
  refine ⟨rfl, ?_⟩
  decide

/-- C5 amended: booleans pass through, `None` is the default, recognized
strings use the word tables, unknown strings are logged and take the
default — but any other value (int, list, …) is coerced with Python
truthiness `bool(value)` rather than the caller-supplied default. -/
theorem c5_bool_with_default_cases (v : PyVal) (d : Bool) :
    (v = .pyNone → bool_with_default v d = d)
    ∧ (∀ b, v = .pyBool b → bool_with_default v d = b)
    ∧ (∀ s, v = .pyStr s → asciiLower (pyStrip s) ∈ TRUE_WORDS →
        bool_with_default v d = true)
    ∧ (∀ s, v = .pyStr s → asciiLower (pyStrip s) ∉ TRUE_WORDS →
        asciiLower (pyStrip s) ∈ FALSE_WORDS → bool_with_default v d = false)
    ∧ (∀ s, v = .pyStr s → asciiLower (pyStrip s) ∉ TRUE_WORDS →
        asciiLower (pyStrip s) ∉ FALSE_WORDS → bool_with_default v d = d)
    ∧ ((v ≠ .pyNone) → (∀ b, v ≠ .pyBool b) → (∀ s, v ≠ .pyStr s) →
        bool_with_default v d = pyTruthy v) := by
  have hstr : ∀ s, bool_with_default (.pyStr s) d
      = (if asciiLower (pyStrip s) ∈ TRUE_WORDS then true
        else if asciiLower (pyStrip s) ∈ FALSE_WORDS then false else d) :=
    fun s => rfl
  refine ⟨?_, ?_, ?_, ?_, ?_, ?_⟩
  · intro h; subst h; rfl
  · intro b h; subst h; rfl
  · intro s h hmem; subst h; rw [hstr, if_pos hmem]
  · intro s h hnt hf; subst h; rw [hstr, if_neg hnt, if_pos hf]
  · intro s h hnt hnf; subst h; rw [hstr, if_neg hnt, if_neg hnf]
  · intro hn hb hs
    cases v with
    | pyNone => exact absurd rfl hn
    | pyBool b => exact absurd rfl (hb b)
    | pyStr s => exact absurd rfl (hs s)
    | pyInt n => rfl
    | pyList xs => rfl

/-- C5 witness: the amended theorem applied at the concrete policy values
`" YES "`, `"off"`, `"flase"` and the integer `5`. -/
theorem c5_bool_with_default_cases_witness :
    bool_with_default (.pyStr " YES ") false = true
    ∧ bool_with_default (.pyStr "off") true = false
    ∧ bool_with_default (.pyStr "flase") true = true
    ∧ bool_with_default (.pyInt 5) false = pyTruthy (.pyInt 5) := by
  refine ⟨?_, ?_, ?_, ?_⟩
  · exact (c5_bool_with_default_cases (.pyStr " YES ") false).2.2.1
      " YES " rfl (by decide)
  · exact (c5_bool_with_default_cases (.pyStr "off") true).2.2.2.1
      "off" rfl (by decide) (by decide)
  · exact (c5_bool_with_default_cases (.pyStr "flase") true).2.2.2.2.1
      "flase" rfl (by decide) (by decide)
  · exact (c5_bool_with_default_cases (.pyInt 5) false).2.2.2.2.2
      (fun h => PyVal.noConfusion h) (fun b h => PyVal.noConfusion h)
      (fun s h => PyVal.noConfusion h)

/-- C6: if the PID file names a live process (present, integer content,
nonzero, alive), a newly started worker exits with code 0 and leaves the
PID file's contents and the queue directory unchanged, registering no
unlink; in every other case (absent file, unparseable or zero pid, dead
process) it writes its own PID and registers unlink-on-exit, still
leaving the queue untouched. -/
theorem c6_pid_lock_exclusion (alive : Int → Bool) (selfPid : Nat) (fs : WorkerFs) :
    (livePidRecorded alive fs = true →
      acquire_pid_lock alive selfPid fs = ⟨.exitZero, fs, false⟩)
    ∧ (livePidRecorded alive fs = false →
      acquire_pid_lock alive selfPid fs
        = ⟨.locked, ⟨some (toString selfPid), fs.queue⟩, true⟩) := by
  obtain ⟨pidFile, queue⟩ := fs
  cases pidFile with
  | none => exact ⟨fun h => by simp [livePidRecorded] at h, fun _ => rfl⟩
  | some content =>
      cases hp : pyInt content with
      | none =>
          refine ⟨fun h => ?_, fun _ => ?_⟩
          · simp [livePidRecorded, hp] at h
          · simp [acquire_pid_lock, hp]
      | some p =>
          by_cases hc : p ≠ 0 ∧ alive p = true
          · refine ⟨fun _ => ?_, fun h => ?_⟩
            · simp [acquire_pid_lock, hp, if_pos hc]
            · exfalso
              simp only [livePidRecorded, hp, Bool.and_eq_false_iff,
                decide_eq_false_iff_not, not_not] at h
              rcases h with h | h
              · exact hc.1 h
              · rw [hc.2] at h; exact Bool.false_ne_true h.symm
          · refine ⟨fun h => ?_, fun _ => ?_⟩
            · exfalso
              simp only [livePidRecorded, hp, Bool.and_eq_true,
                decide_eq_true_eq] at h
              exact hc h
            · simp [acquire_pid_lock, hp, if_neg hc]

/-- C6 witness: the theorem applied with a live recorded pid 42 (second
worker exits 0, pid file still `"42"`, queue untouched) and with a dead
recorded pid (lock taken, own pid 7 written). -/
theorem c6_pid_lock_exclusion_witness :
    acquire_pid_lock (fun _ => true) 7 ⟨some "42", ["1-a.json"]⟩
      = ⟨.exitZero, ⟨some "42", ["1-a.json"]⟩, false⟩
    ∧ acquire_pid_lock (fun _ => false) 7 ⟨some "42", ["1-a.json"]⟩
      = ⟨.locked, ⟨some "7", ["1-a.json"]⟩, true⟩ := by
  constructor
  · exact (c6_pid_lock_exclusion (fun _ => true) 7 ⟨some "42", ["1-a.json"]⟩).1
      (by decide)
  · exact (c6_pid_lock_exclusion (fun _ => false) 7 ⟨some "42", ["1-a.json"]⟩).2
      (by decide)

/-- Reversing the tail of a file turns "last `k` lines, oldest first" into
"newest `k` lines, newest first". -/
theorem tailFile_reverse (f : List String) (k : Int) (hk : 0 < k) :
    (tailFile f k).reverse = f.reverse.take k.toNat := by
  rw [tailFile, if_pos hk]
  exact (List.take_reverse).symm

/-- The accumulation loop of `_collect_events` gathers exactly the first
`limit - acc.length` lines of the newest-first concatenation of all
files. -/
theorem collectLinesRev_eq (limit : Nat) (files : List (List String))
    (acc : List String) :
    collectLinesRev limit files acc
      = acc ++ ((files.map List.reverse).flatten).take (limit - acc.length) := by
  induction files generalizing acc with
  | nil => simp [collectLinesRev]
  | cons f rest ih =>
      rw [collectLinesRev]
      by_cases h : limit ≤ acc.length
      · rw [if_pos h, Nat.sub_eq_zero_of_le h]
        simp
      · rw [if_neg h]
        have h2 : acc.length < limit := Nat.lt_of_not_le h
        have hk : (0 : Int) < (limit : Int) - (acc.length : Int) := by omega
        have htoNat : ((limit : Int) - (acc.length : Int)).toNat
            = limit - acc.length := by omega
        rw [ih, tailFile_reverse f _ hk, htoNat]
        rw [List.map_cons, List.flatten_cons, List.take_append_eq_append_take]
        rw [List.length_append, List.length_take, List.length_reverse]
        have harg : limit - (acc.length + ((limit - acc.length) ⊓ f.length))
            = limit - acc.length - f.length := by omega
        rw [harg, List.append_assoc]

/-- C4 counterexample: two daily files, `["a1", "a2"]` older and
`["b1", "b2"]` newer, tail n = 3.  The claim's newest-first order would be
`["b2", "b1", "a2"]`, but `_collect_events` reverses the collected lines
back to chronological order and returns `["a2", "b1", "b2"]`. -/
theorem c4_tail_order_counterexample :
    collect_events [["b1", "b2"], ["a1", "a2"]] 3 = ["a2", "b1", "b2"]
    ∧ collect_events [["b1", "b2"], ["a1", "a2"]] 3 ≠ ["b2", "b1", "a2"] := by
  constructor <;> decide

/-- C4 amended: the tail-N query reads newest files first, stops once `n`
lines are collected, and returns exactly the newest `n` lines — but in
chronological (oldest-first) order, i.e. the reverse of the newest-first
concatenation truncated at `n`, with blank lines dropped. -/
theorem c4_tail_newest_n_chronological (files : List (List String)) (n : Nat) :
    collect_events files n
      = ((((files.map List.reverse).flatten).take n).reverse).filter
          (fun raw => pyStrip raw ≠ "") := by
  unfold collect_events
  rw [collectLinesRev_eq]
  simp [List.take_take]

/-- C3 (rate limiter, modelled from the spec): on a gated request the
client's bucket is trimmed to the window and `now` is appended, every
other client's bucket is untouched, and the request is rejected with
`429 "rate limit exceeded"` iff the count `k` of remaining prior requests
satisfies `k ≥ MAX_REQUESTS`. -/
theorem c3_rate_limit_fixed_window (buckets : String → List Nat)
    (client : String) (now : Nat) :
    ((rate_limit_gate MAX_REQUESTS WINDOW_SECONDS now buckets client).1 client
      = ((buckets client).filter fun t => now - t < WINDOW_SECONDS) ++ [now])
    ∧ (∀ other, other ≠ client →
        (rate_limit_gate MAX_REQUESTS WINDOW_SECONDS now buckets client).1 other
          = buckets other)
    ∧ ((rate_limit_gate MAX_REQUESTS WINDOW_SECONDS now buckets client).2
          = .rejected 429 "rate limit exceeded"
        ↔ MAX_REQUESTS
            ≤ ((buckets client).filter fun t => now - t < WINDOW_SECONDS).length) := by
  refine ⟨?_, ?_, ?_⟩
  · simp [rate_limit_gate]
  · intro other ho
    simp [rate_limit_gate, ho]
  · by_cases h : MAX_REQUESTS
        ≤ ((buckets client).filter fun t => now - t < WINDOW_SECONDS).length
    · simp [rate_limit_gate, h]
    · simp [rate_limit_gate, h]

/-- C3 witness: with the default limits, a client whose trimmed bucket
already holds 120 in-window requests is rejected with the exact detail,
and a busy client's request leaves another client's bucket unchanged. -/
theorem c3_rate_limit_fixed_window_witness :
    (rate_limit_gate MAX_REQUESTS WINDOW_SECONDS 1000
        (fun _ => List.replicate 120 1000) "alice").2
      = .rejected 429 "rate limit exceeded"
    ∧ (rate_limit_gate MAX_REQUESTS WINDOW_SECONDS 1000
        (fun _ => [10, 990]) "alice").1 "bob" = [10, 990] := by
  constructor
  · exact (c3_rate_limit_fixed_window (fun _ => List.replicate 120 1000)
      "alice" 1000).2.2.mpr (by decide)
  · exact (c3_rate_limit_fixed_window (fun _ => [10, 990]) "alice" 1000).2.1
      "bob" (by decide)

/-- C7: the replay parameter defaults to 50 but is NOT clamped to ≥ 1:
for `replay=0` the code computes `lines[-0:]`, which is the whole list,
so a newest file of two lines is replayed in full — more than the
`max(replay, 1) = 1` lines the claim allows. -/
theorem c7_replay_zero_not_clamped :
    parseReplayParam none = 50
    ∧ parseReplayParam (some "0") = 0
    ∧ initialReplay ["e1", "e2"] (some "0") = ["e1", "e2"]
    ∧ ¬ (initialReplay ["e1", "e2"] (some "0")).length ≤ 1 := by
  refine ⟨rfl, by decide, by decide, by decide⟩

/-- A kept line of `get_changed_files` always resolves inside the
repository root: the `resolved.relative_to(repo_root)` check guards the
`files.append`. -/
theorem keepChanged_inside (repoDir repoRoot : PathParts)
    (resolve : PathParts → PathParts) (fileExists : PathParts → Bool)
    (excludeMatch : String → Bool) (raw : String) (p : PathParts)
    (h : keepChanged repoDir repoRoot resolve fileExists excludeMatch raw
      = some p) :
    isWithin repoRoot (resolve p) = true := by
  unfold keepChanged at h
  split at h
  · exact Option.noConfusion h
  · split at h
    · exact Option.noConfusion h
    · split at h
      · exact Option.noConfusion h
      · next hin =>
          split at h
          · exact Option.noConfusion h
          · obtain rfl := Option.some.inj h
            simpa using hin

/-- C8: every path returned by `get_changed_files` resolves to a location
inside the repository root (escaping paths — e.g. symlinks out of the
repo — are logged and skipped, and the function returns normally rather
than raising). -/
theorem c8_changed_files_inside_root (repoDir : PathParts)
    (resolve : PathParts → PathParts) (fileExists : PathParts → Bool)
    (excludeMatch : String → Bool) (diffExit : Int) (diffStdout : List String)
    (p : PathParts)
    (hp : p ∈ get_changed_files repoDir resolve fileExists excludeMatch
      diffExit diffStdout) :
    isWithin (resolve repoDir) (resolve p) = true := by
  unfold get_changed_files at hp
  split at hp
  · exact absurd hp (List.not_mem_nil p)
  · obtain ⟨raw, _, hkeep⟩ := List.mem_filterMap.mp hp
    exact keepChanged_inside repoDir (resolve repoDir) resolve fileExists
      excludeMatch raw p hkeep

/-- C8 witness: the repository's own symlink-escape scenario — the changed
lines name `inside.py` and the escaping symlink `link.py`; the returned
set contains `inside.py` (which resolves inside the root), and the
escaping path is excluded. -/
theorem c8_changed_files_inside_root_witness :
    ["repo", "inside.py"] ∈ get_changed_files ["repo"] demoResolve
        (fun _ => true) (fun _ => false) 0 ["inside.py", "link.py"]
    ∧ isWithin (demoResolve ["repo"]) (demoResolve ["repo", "inside.py"]) = true
    ∧ ["repo", "link.py"] ∉ get_changed_files ["repo"] demoResolve
        (fun _ => true) (fun _ => false) 0 ["inside.py", "link.py"] := by
  refine ⟨by decide, ?_, by decide⟩
  exact c8_changed_files_inside_root ["repo"] demoResolve (fun _ => true)
    (fun _ => false) 0 ["inside.py", "link.py"] ["repo", "inside.py"]
    (by decide)

end Sichter
